import Mathlib

/-!
Verification of the OAuth authorization-server core of `mcp_auth_test`.

Shallow embedding of the OAuth 2.1-style authorization server implemented in
`greeting_mcp_server` (storage, PKCE, JWT issuance, token/register endpoints)
and of the PKCE pair generator in `dynamic_mcp_client/oauth/pkce.py`.

Bytes are `Nat`s below 256, 32-bit words are `Nat`s reduced modulo `2^32`,
Python dicts are association lists, and the JSON persistence file is the
association list it serializes.  External library calls (`hashlib.sha256`,
`base64.urlsafe_b64encode`, PyJWT's `encode`/`decode`) are embedded by
faithful executable models: SHA-256 and base64url are implemented in full;
RS256 signing is modelled by recording which key signed a token, with
verification succeeding exactly when the matching public key, issuer,
audience and a non-expired `exp` are presented, which is PyJWT's documented
behaviour for `jwt.decode(..., algorithms=["RS256"], issuer=..., audience=...)`.
-/

namespace MCPAuth

/-! ## Bytes and UTF-8 (model of Python `str.encode('utf-8')`) -/

/-- UTF-8 encoding of a single code point, as bytes (each `< 256`). -/
def utf8EncodeChar (c : Char) : List Nat :=
  let n := c.toNat
  if n < 0x80 then [n]
  else if n < 0x800 then
    [0xC0 ||| (n >>> 6), 0x80 ||| (n &&& 0x3F)]
  else if n < 0x10000 then
    [0xE0 ||| (n >>> 12), 0x80 ||| ((n >>> 6) &&& 0x3F), 0x80 ||| (n &&& 0x3F)]
  else
    [0xF0 ||| (n >>> 18), 0x80 ||| ((n >>> 12) &&& 0x3F),
     0x80 ||| ((n >>> 6) &&& 0x3F), 0x80 ||| (n &&& 0x3F)]

/-- Model of Python `s.encode('utf-8')`: the UTF-8 bytes of a string. -/
def strBytes (s : String) : List Nat :=
  (s.data.map utf8EncodeChar).flatten

/-! ## base64url (model of Python `base64.urlsafe_b64encode`) -/

/-- The URL-safe base64 alphabet (RFC 4648 §5), as used by
`base64.urlsafe_b64encode`. -/
def b64Char (n : Nat) : Char :=
  if n < 26 then Char.ofNat (65 + n)          -- 'A'..'Z'
  else if n < 52 then Char.ofNat (97 + (n - 26)) -- 'a'..'z'
  else if n < 62 then Char.ofNat (48 + (n - 52)) -- '0'..'9'
  else if n = 62 then '-'
  else '_'

/-- RFC 4648 base64 of a byte list with `'='` padding, URL-safe alphabet:
model of `base64.urlsafe_b64encode`. -/
def b64urlEncode : List Nat → List Char
  | [] => []
  | [a] =>
    [b64Char (a / 4), b64Char ((a % 4) * 16), '=', '=']
  | [a, b] =>
    [b64Char (a / 4), b64Char ((a % 4) * 16 + b / 16), b64Char ((b % 16) * 4), '=']
  | a :: b :: c :: rest =>
    b64Char (a / 4) :: b64Char ((a % 4) * 16 + b / 16) ::
    b64Char ((b % 16) * 4 + c / 64) :: b64Char (c % 64) :: b64urlEncode rest

/-- Model of Python `bytes.rstrip(b'=')`: drop trailing `'='` characters. -/
def rstripEq (cs : List Char) : List Char :=
  (cs.reverse.dropWhile (fun c => c = '=')).reverse

/-- `base64.urlsafe_b64encode(bs).rstrip(b'=').decode('utf-8')`, the
padding-stripped base64url string both `generate_pkce_pair` and the token
endpoint compute. -/
def b64urlNoPad (bs : List Nat) : String :=
  String.mk (rstripEq (b64urlEncode bs))

/-! ## SHA-256 (model of Python `hashlib.sha256(...).digest()`) -/

/-- `2^32`, the word modulus of SHA-256. -/
def w32 : Nat := 4294967296

/-- Right rotation of a 32-bit word. -/
def rotr32 (n x : Nat) : Nat :=
  ((x >>> n) ||| (x <<< (32 - n))) % w32

/-- The 64 SHA-256 round constants. -/
def sha256K : List Nat :=
  [1116352408, 1899447441, 3049323471, 3921009573, 961987163,
   1508970993, 2453635748, 2870763221, 3624381080, 310598401,
   607225278, 1426881987, 1925078388, 2162078206, 2614888103,
   3248222580, 3835390401, 4022224774, 264347078, 604807628,
   770255983, 1249150122, 1555081692, 1996064986, 2554220882,
   2821834349, 2952996808, 3210313671, 3336571891, 3584528711,
   113926993, 338241895, 666307205, 773529912, 1294757372,
   1396182291, 1695183700, 1986661051, 2177026350, 2456956037,
   2730485921, 2820302411, 3259730800, 3345764771, 3516065817,
   3600352804, 4094571909, 275423344, 430227734, 506948616,
   659060556, 883997877, 958139571, 1322822218, 1537002063,
   1747873779, 1955562222, 2024104815, 2227730452, 2361852424,
   2428436474, 2756734187, 3204031479, 3329325298]

/-- The SHA-256 initial hash state. -/
def sha256H0 : List Nat :=
  [1779033703, 3144134277, 1013904242, 2773480762,
   1359893119, 2600822924, 528734635, 1541459225]

/-- Big-endian byte decomposition: `beBytes n x` is the low `n` bytes of `x`,
most significant first. -/
def beBytes : Nat → Nat → List Nat
  | 0, _ => []
  | n + 1, x => beBytes n (x / 256) ++ [x % 256]

/-- SHA-256 padding: append `0x80`, zero bytes to 56 mod 64, and the
message bit length as 8 big-endian bytes. -/
def sha256Pad (msg : List Nat) : List Nat :=
  msg ++ [0x80] ++ List.replicate ((119 - msg.length % 64) % 64) 0
      ++ beBytes 8 (msg.length * 8)

/-- Split a byte list into 64-byte chunks (structural recursion on a fuel
bound, so the kernel can evaluate it; the fuel never runs out). -/
def chunks64Aux : Nat → List Nat → List (List Nat)
  | 0, _ => []
  | _, [] => []
  | fuel + 1, bs => bs.take 64 :: chunks64Aux fuel (bs.drop 64)

/-- Split a byte list into 64-byte chunks. -/
def chunks64 (bs : List Nat) : List (List Nat) :=
  chunks64Aux bs.length bs

/-- Big-endian 32-bit words from bytes (groups of 4). -/
def wordsOfBytes : List Nat → List Nat
  | a :: b :: c :: d :: rest =>
    (((a * 256 + b) * 256 + c) * 256 + d) :: wordsOfBytes rest
  | _ => []

/-- Indexing into the message schedule (default 0 is never hit in use). -/
def wget (w : List Nat) (i : Nat) : Nat := w.getD i 0

/-- One step of SHA-256 message-schedule extension: append word `w[i]` for
`i = w.length`. -/
def sha256ExtendStep (w : List Nat) : List Nat :=
  let i := w.length
  let x15 := wget w (i - 15)
  let x2 := wget w (i - 2)
  let s0 := (rotr32 7 x15) ^^^ (rotr32 18 x15) ^^^ (x15 >>> 3)
  let s1 := (rotr32 17 x2) ^^^ (rotr32 19 x2) ^^^ (x2 >>> 10)
  w ++ [(wget w (i - 16) + s0 + wget w (i - 7) + s1) % w32]

/-- Extend the 16-word schedule by `n` further words. -/
def sha256Extend : Nat → List Nat → List Nat
  | 0, w => w
  | n + 1, w => sha256Extend n (sha256ExtendStep w)

/-- One SHA-256 compression round on state `[a,b,c,d,e,f,g,h]` with round
constant and schedule word `kw`. -/
def sha256Round (st : List Nat) (kw : Nat × Nat) : List Nat :=
  match st with
  | [a, b, c, d, e, f, g, h] =>
    let S1 := (rotr32 6 e) ^^^ (rotr32 11 e) ^^^ (rotr32 25 e)
    let ch := (e &&& f) ^^^ ((0xFFFFFFFF ^^^ e) &&& g)
    let temp1 := (h + S1 + ch + kw.1 + kw.2) % w32
    let S0 := (rotr32 2 a) ^^^ (rotr32 13 a) ^^^ (rotr32 22 a)
    let maj := (a &&& b) ^^^ (a &&& c) ^^^ (b &&& c)
    let temp2 := (S0 + maj) % w32
    [(temp1 + temp2) % w32, a, b, c, (d + temp1) % w32, e, f, g]
  | other => other

/-- Process one 64-byte block: run the 64 rounds and add the result into the
running state, componentwise mod `2^32`. -/
def sha256Block (st : List Nat) (block : List Nat) : List Nat :=
  let w := sha256Extend 48 (wordsOfBytes block)
  let st2 := (sha256K.zip w).foldl sha256Round st
  (st.zip st2).map (fun p => (p.1 + p.2) % w32)

/-- SHA-256 of a byte list, as its 32 digest bytes: model of
`hashlib.sha256(msg).digest()`. -/
def sha256 (msg : List Nat) : List Nat :=
  (((chunks64 (sha256Pad msg)).foldl sha256Block sha256H0).map (beBytes 4)).flatten


/-! ## PKCE pair generation (`dynamic_mcp_client/oauth/pkce.py`) -/

/-- The S256 challenge computation shared by `generate_pkce_pair` and the
token endpoint:
`base64.urlsafe_b64encode(hashlib.sha256(v.encode('utf-8')).digest()).rstrip(b'=').decode('utf-8')`. -/
def s256Challenge (verifier : String) : String :=
  b64urlNoPad (sha256 (strBytes verifier))

/-- `generate_pkce_pair`, with the 32 random bytes drawn by
`secrets.token_bytes(32)` supplied as the input. -/
def generate_pkce_pair (randomBytes : List Nat) : String × String :=
  let code_verifier := b64urlNoPad randomBytes
  let code_challenge := s256Challenge code_verifier
  (code_verifier, code_challenge)

/-! ## Data model (`greeting_mcp_server/oauth/storage.py`) -/

/-- `OAuthClient` dataclass. -/
structure OAuthClient where
  client_id : String
  client_secret : String
  client_name : String
  redirect_uris : List String
  grant_types : List String
  registration_access_token : String
  created_at : String
deriving DecidableEq, Repr

/-- `AuthorizationCode` dataclass. -/
structure AuthorizationCode where
  code : String
  client_id : String
  redirect_uri : String
  code_challenge : Option String
  code_challenge_method : String
  scope : String
  created_at : String
  used : Bool := false
deriving DecidableEq, Repr

/-- Python dict lookup `d.get(k)` on an insertion-ordered dict modelled as an
association list (keys are unique, so first match is the binding). -/
def alistGet : List (String × α) → String → Option α
  | [], _ => none
  | p :: rest, k => if p.1 == k then some p.2 else alistGet rest k

/-- Python dict assignment `d[k] = v`: overwrite in place if the key exists,
otherwise append (insertion order, as in Python 3.7+ dicts). -/
def alistSet : List (String × α) → String → α → List (String × α)
  | [], k, v => [(k, v)]
  | p :: rest, k, v =>
    if p.1 == k then (k, v) :: rest else p :: alistSet rest k v

/-- Python `del d[k]`. -/
def alistDel (l : List (String × α)) (k : String) : List (String × α) :=
  l.filter (fun p => p.1 != k)

/-- `ClientStorage` state: the two in-memory dicts, whether a `storage_path`
was supplied, and the contents of the persisted JSON file (which
`_save_to_file` writes from `_clients` alone).  Every public method takes the
`threading.Lock` around its whole body, so each method below is one atomic
transition. -/
structure ClientStorage where
  has_storage_path : Bool
  clients : List (String × OAuthClient)
  auth_codes : List (String × AuthorizationCode)
  file : List (String × OAuthClient)
deriving DecidableEq, Repr

/-- `ClientStorage._save_to_file`: serialize the `_clients` dict to the
storage file (a no-op when no `storage_path` was given).  Authorization codes
are not written. -/
def ClientStorage.save_to_file (s : ClientStorage) : ClientStorage :=
  if s.has_storage_path then { s with file := s.clients } else s

/-- `ClientStorage.create_client` (with `datetime.now(...)` supplied as the
`created_at` argument): store the client and save to file, both inside the
lock. -/
def ClientStorage.create_client (s : ClientStorage)
    (client_id client_secret client_name : String)
    (redirect_uris grant_types : List String)
    (registration_access_token created_at : String) :
    ClientStorage × OAuthClient :=
  let client : OAuthClient :=
    { client_id := client_id, client_secret := client_secret,
      client_name := client_name, redirect_uris := redirect_uris,
      grant_types := grant_types,
      registration_access_token := registration_access_token,
      created_at := created_at }
  (({ s with clients := alistSet s.clients client_id client }).save_to_file, client)

/-- `ClientStorage.get_client`. -/
def ClientStorage.get_client (s : ClientStorage) (client_id : String) :
    Option OAuthClient :=
  alistGet s.clients client_id

/-- `ClientStorage.validate_credentials`: exact-match secret comparison,
`false` for an unknown client. -/
def ClientStorage.validate_credentials (s : ClientStorage)
    (client_id client_secret : String) : Bool :=
  match s.get_client client_id with
  | none => false
  | some client => client.client_secret == client_secret

/-- `validate_credentials` as the endpoints invoke it on raw form values: a
missing (`None`) `client_id` is not a key of the clients dict and a missing
`client_secret` compares unequal to any stored string, so either yields
`false`. -/
def ClientStorage.validate_credentials_form (s : ClientStorage)
    (client_id client_secret : Option String) : Bool :=
  match client_id, client_secret with
  | some cid, some sec => s.validate_credentials cid sec
  | _, _ => false

/-- `ClientStorage.delete_client`: remove and save to file inside the lock;
`false` when the client is unknown. -/
def ClientStorage.delete_client (s : ClientStorage) (client_id : String) :
    ClientStorage × Bool :=
  if s.clients.any (fun p => p.1 == client_id) then
    (({ s with clients := alistDel s.clients client_id }).save_to_file, true)
  else (s, false)

/-- `ClientStorage.store_authorization_code` (with `datetime.now(...)`
supplied as `created_at`): insert a fresh code with `used = False`.  The
source does not call `_save_to_file` here. -/
def ClientStorage.store_authorization_code (s : ClientStorage)
    (code client_id redirect_uri : String) (code_challenge : Option String)
    (code_challenge_method scope created_at : String) :
    ClientStorage × AuthorizationCode :=
  let auth_code_obj : AuthorizationCode :=
    { code := code, client_id := client_id, redirect_uri := redirect_uri,
      code_challenge := code_challenge,
      code_challenge_method := code_challenge_method, scope := scope,
      created_at := created_at, used := false }
  ({ s with auth_codes := alistSet s.auth_codes code auth_code_obj },
   auth_code_obj)

/-- `ClientStorage.get_authorization_code`: the stored code if present and
not used, else `None`. -/
def ClientStorage.get_authorization_code (s : ClientStorage) (code : String) :
    Option AuthorizationCode :=
  match alistGet s.auth_codes code with
  | some auth_code => if auth_code.used then none else some auth_code
  | none => none

/-- `ClientStorage.mark_code_as_used`: set the `used` flag, `false` when the
code is unknown.  The source does not call `_save_to_file` here. -/
def ClientStorage.mark_code_as_used (s : ClientStorage) (code : String) :
    ClientStorage × Bool :=
  match alistGet s.auth_codes code with
  | some auth_code =>
    ({ s with auth_codes := alistSet s.auth_codes code { auth_code with used := true } },
     true)
  | none => (s, false)

/-! ## JWT issuance and verification (`greeting_mcp_server/oauth/jwt_utils.py`)

`jwt.encode`/`jwt.decode` (PyJWT) and the RSA primitives are external
libraries; they are embedded by an executable model: a token records its
header (`kid`, algorithm), its claim set, and the identity of the keypair
whose private half signed it.  `jwt.decode(token, pub, algorithms=["RS256"],
issuer=..., audience=...)` succeeds exactly when the signature verifies under
`pub` (here: the same keypair identity), the algorithm is RS256, `iss` and
`aud` equal the expected values, and `exp` has not passed (PyJWT rejects when
`exp <= now`, zero leeway); any failure raises, modelled as `none`. -/

/-- An RSA private key, identified by its keypair identity. -/
structure RSAPrivateKey where
  key : Nat
deriving DecidableEq, Repr

/-- An RSA public key, identified by its keypair identity. -/
structure RSAPublicKey where
  key : Nat
deriving DecidableEq, Repr

/-- The two halves returned by `get_or_create_keypair` for keypair `k`. -/
def keypairOf (k : Nat) : RSAPrivateKey × RSAPublicKey :=
  (⟨k⟩, ⟨k⟩)

/-- The claim set built by `create_access_token`. -/
structure JwtClaims where
  iss : String
  sub : String
  aud : String
  iat : Int
  exp : Int
  scope : String
deriving DecidableEq, Repr

/-- A signed JWT: header fields, claims, and the keypair identity of the
signing private key (model of the RS256 signature). -/
structure Jwt where
  kid : String
  alg : String
  claims : JwtClaims
  signedWith : Nat
deriving DecidableEq, Repr

/-- `DEFAULT_KID` from `jwt_utils.py`. -/
def DEFAULT_KID : String := "default-key-2025"

/-- `create_access_token` (with `datetime.now(timezone.utc)` supplied as
`now`, in epoch seconds, and `expires_delta` in seconds): builds the claim
set `{iss, sub = client_id, aud, iat = now, exp = now + expires_delta,
scope}` and signs it with the private key under an RS256 header carrying
`kid`. -/
def create_access_token (client_id issuer audience : String)
    (private_key : RSAPrivateKey) (kid : String) (expires_delta : Int)
    (scope : String) (now : Int) : Jwt :=
  { kid := kid, alg := "RS256",
    claims :=
      { iss := issuer, sub := client_id, aud := audience, iat := now,
        exp := now + expires_delta, scope := scope },
    signedWith := private_key.key }

/-- `verify_token` (with the current time supplied as `now`): decode with
signature, issuer, audience and expiry checks; `none` models the
`jwt.InvalidTokenError` raise. -/
def verify_token (token : Jwt) (public_key : RSAPublicKey)
    (issuer audience : String) (now : Int) : Option JwtClaims :=
  if token.alg = "RS256" ∧ token.signedWith = public_key.key ∧
      token.claims.iss = issuer ∧ token.claims.aud = audience ∧
      now < token.claims.exp then
    some token.claims
  else none

/-! ## Token endpoint (`greeting_mcp_server/main.py`, `token_endpoint_route`) -/

/-- The form fields the token endpoint reads via `form.get(...)`; `none`
models an absent field. -/
structure TokenForm where
  grant_type : Option String := none
  client_id : Option String := none
  client_secret : Option String := none
  scope : Option String := none
  code : Option String := none
  redirect_uri : Option String := none
  code_verifier : Option String := none
deriving DecidableEq, Repr

/-- Python truthiness of an optional string: `None` and `""` are falsy. -/
def truthy : Option String → Bool
  | none => false
  | some s => !(s == "")

/-- The JSON body of a successful token response (`TokenResponse`). -/
structure TokenSuccess where
  access_token : Jwt
  token_type : String
  expires_in : Int
  scope : String
deriving DecidableEq, Repr

/-- Outcome of a token request: a 200 JSON body, or the `HTTPException`
raised with its status code and `error` field. -/
inductive TokenResult where
  | success (resp : TokenSuccess)
  | error (statusCode : Nat) (err : String)
deriving DecidableEq, Repr

/-- The issuer baked into `token_endpoint_route`. -/
def ISSUER : String := "http://localhost:8000"

/-- The audience baked into `token_endpoint_route`. -/
def AUDIENCE : String := "mcp-greeting-server"

/-- The PKCE validation block of `token_endpoint_route`
(`if auth_code.code_challenge: ...`): `none` when the block raises nothing
(including when the stored challenge is falsy — `None` or `""` — and the
block is skipped), otherwise the error response raised.  For method `S256`
the challenge is recomputed as
`base64.urlsafe_b64encode(hashlib.sha256(code_verifier.encode()).digest()).rstrip("=")`;
any other method falls into the `else:  # plain` branch, comparing the
verifier directly. -/
def pkceCheck (auth_code : AuthorizationCode) (code_verifier : Option String) :
    Option TokenResult :=
  match auth_code.code_challenge with
  | none => none
  | some challenge =>
    if challenge = "" then none
    else if !(truthy code_verifier) then some (.error 400 "invalid_request")
    else
      let v := code_verifier.getD ""
      let computed_challenge :=
        if auth_code.code_challenge_method = "S256" then s256Challenge v else v
      if computed_challenge ≠ challenge then some (.error 400 "invalid_grant")
      else none

/-- `token_endpoint_route` (with the private key from
`get_or_create_keypair` and the current time supplied as parameters):
dispatch on `grant_type`, validate, and issue a one-hour token.  Returns the
response together with the storage state after the request (only the
authorization-code path mutates it, by `mark_code_as_used`).  Where the
source uses a plain string it is already guaranteed non-`None` by the
preceding checks, so `Option.getD ""` is never the default. -/
def token_endpoint_route (s : ClientStorage) (private_key : RSAPrivateKey)
    (now : Int) (f : TokenForm) : TokenResult × ClientStorage :=
  let issue := fun (scope : String) (s' : ClientStorage) =>
    let access_token := create_access_token (f.client_id.getD "") ISSUER
      AUDIENCE private_key DEFAULT_KID 3600 scope now
    (TokenResult.success
      { access_token := access_token, token_type := "Bearer",
        expires_in := 3600, scope := scope }, s')
  if f.grant_type = some "client_credentials" then
    let scope := f.scope.getD "mcp:tools"
    if !(s.validate_credentials_form f.client_id f.client_secret) then
      (.error 401 "invalid_client", s)
    else issue scope s
  else if f.grant_type = some "authorization_code" then
    if !(truthy f.code) || !(truthy f.redirect_uri) then
      (.error 400 "invalid_request", s)
    else if !(s.validate_credentials_form f.client_id f.client_secret) then
      (.error 401 "invalid_client", s)
    else
      match s.get_authorization_code (f.code.getD "") with
      | none => (.error 400 "invalid_grant", s)
      | some auth_code =>
        if f.client_id ≠ some auth_code.client_id then
          (.error 400 "invalid_grant", s)
        else if f.redirect_uri ≠ some auth_code.redirect_uri then
          (.error 400 "invalid_grant", s)
        else
          match pkceCheck auth_code f.code_verifier with
          | some err => (err, s)
          | none =>
            let s' := (s.mark_code_as_used (f.code.getD "")).1
            issue auth_code.scope s'
  else (.error 400 "unsupported_grant_type", s)

/-! ## Registration endpoint (`greeting_mcp_server/main.py`,
`register_endpoint_route`; same defaulting logic as
`oauth/endpoints/register.py`) -/

/-- `ClientRegistrationRequest` after pydantic parsing.  When a field is
omitted from the JSON body pydantic fills its declared default:
`grant_types = ["client_credentials"]`, `redirect_uris = None`,
`token_endpoint_auth_method = "client_secret_post"`. -/
structure ClientRegistrationRequest where
  client_name : String
  redirect_uris : Option (List String) := none
  grant_types : Option (List String) := some ["client_credentials"]
  token_endpoint_auth_method : Option String := some "client_secret_post"
  scope : Option String := some "mcp:tools"
deriving DecidableEq, Repr

/-- Python `x or default` on an optional list: `None` and `[]` are falsy. -/
def pyOrList (x : Option (List String)) (dflt : List String) : List String :=
  match x with
  | none => dflt
  | some l => if l.isEmpty then dflt else l

/-- `ClientRegistrationResponse` body. -/
structure ClientRegistrationResponse where
  client_id : String
  client_secret : String
  client_name : String
  redirect_uris : List String
  grant_types : List String
  token_endpoint_auth_method : String
  registration_access_token : String
  registration_client_uri : String
deriving DecidableEq, Repr

/-- `register_endpoint_route` (with the generated `uuid4`, secrets and the
creation timestamp supplied as parameters): default falsy `redirect_uris`
to `[]` and falsy `grant_types` to `["client_credentials"]`, store the
client, and echo it back. -/
def register_endpoint_route (s : ClientStorage)
    (req : ClientRegistrationRequest)
    (client_id client_secret registration_access_token created_at : String) :
    ClientRegistrationResponse × ClientStorage :=
  let redirect_uris := pyOrList req.redirect_uris []
  let grant_types := pyOrList req.grant_types ["client_credentials"]
  let (s', client) := s.create_client client_id client_secret req.client_name
    redirect_uris grant_types registration_access_token created_at
  ({ client_id := client.client_id, client_secret := client.client_secret,
     client_name := client.client_name,
     redirect_uris := client.redirect_uris,
     grant_types := client.grant_types,
     token_endpoint_auth_method := "client_secret_post",
     registration_access_token := registration_access_token,
     registration_client_uri :=
       "http://localhost:8000/register/" ++ client_id }, s')

/-! ## Interleaving model of concurrent token exchanges

`token_endpoint_route`'s authorization-code path makes three storage calls —
`validate_credentials` (via `get_client`), `get_authorization_code`,
`mark_code_as_used` — each of which takes and releases the storage lock for
its own duration only; the lock is not held across them.  The model below
decomposes the handler into those three atomic steps (the pure
parameter/snapshot checks are fused with the adjacent storage call, which
does not change the set of interleavings since pure steps commute) and runs
two request threads under an explicit schedule. -/

/-- The thread-local state of one in-flight authorization-code exchange:
its form data, its program counter over the three storage calls, the
snapshot its `get_authorization_code` returned, and its final response. -/
structure ExchangeThread where
  form : TokenForm
  pc : Nat
  snapshot : Option AuthorizationCode := none
  result : Option TokenResult := none
deriving DecidableEq, Repr

/-- A freshly arrived exchange request. -/
def initThread (f : TokenForm) : ExchangeThread :=
  { form := f, pc := 0 }

/-- One atomic step of an exchange thread against the shared storage:
`pc = 0` runs the parameter check and `validate_credentials`; `pc = 1` runs
`get_authorization_code` and the pure checks on its snapshot; `pc = 2` runs
`mark_code_as_used` and issues the token from the snapshot's scope.  A
finished thread (`pc ≥ 3`) does nothing. -/
def threadStep (private_key : RSAPrivateKey) (now : Int) (s : ClientStorage)
    (t : ExchangeThread) : ClientStorage × ExchangeThread :=
  match t.pc with
  | 0 =>
    if !(truthy t.form.code) || !(truthy t.form.redirect_uri) then
      (s, { t with pc := 3, result := some (.error 400 "invalid_request") })
    else if !(s.validate_credentials_form t.form.client_id t.form.client_secret) then
      (s, { t with pc := 3, result := some (.error 401 "invalid_client") })
    else (s, { t with pc := 1 })
  | 1 =>
    match s.get_authorization_code (t.form.code.getD "") with
    | none => (s, { t with pc := 3, result := some (.error 400 "invalid_grant") })
    | some auth_code =>
      if t.form.client_id ≠ some auth_code.client_id then
        (s, { t with pc := 3, result := some (.error 400 "invalid_grant") })
      else if t.form.redirect_uri ≠ some auth_code.redirect_uri then
        (s, { t with pc := 3, result := some (.error 400 "invalid_grant") })
      else
        match pkceCheck auth_code t.form.code_verifier with
        | some err => (s, { t with pc := 3, result := some err })
        | none => (s, { t with pc := 2, snapshot := some auth_code })
  | 2 =>
    match t.snapshot with
    | some auth_code =>
      let s' := (s.mark_code_as_used (t.form.code.getD "")).1
      let access_token := create_access_token (t.form.client_id.getD "")
        ISSUER AUDIENCE private_key DEFAULT_KID 3600 auth_code.scope now
      let resp : TokenSuccess :=
        { access_token := access_token, token_type := "Bearer",
          expires_in := 3600, scope := auth_code.scope }
      (s', { t with pc := 3, result := some (.success resp) })
    | none => (s, { t with pc := 3 })
  | _ => (s, t)

/-- Run two exchange threads under a schedule: `true` steps the first
thread, `false` the second. -/
def runSchedule (private_key : RSAPrivateKey) (now : Int) :
    List Bool → ClientStorage → ExchangeThread → ExchangeThread →
    ClientStorage × ExchangeThread × ExchangeThread
  | [], s, t1, t2 => (s, t1, t2)
  | b :: rest, s, t1, t2 =>
    if b then
      let (s', t1') := threadStep private_key now s t1
      runSchedule private_key now rest s' t1' t2
    else
      let (s', t2') := threadStep private_key now s t2
      runSchedule private_key now rest s' t1 t2'

/-- Did the request obtain a token? -/
def isTokenSuccess : Option TokenResult → Bool
  | some (.success _) => true
  | _ => false

/-! ## base64url decoding (used to prove the encoder injective) -/

/-- Inverse of `b64Char` on the URL-safe alphabet. -/
def b64DecodeChar (c : Char) : Nat :=
  let n := c.toNat
  if 65 ≤ n ∧ n ≤ 90 then n - 65
  else if 97 ≤ n ∧ n ≤ 122 then n - 97 + 26
  else if 48 ≤ n ∧ n ≤ 57 then n - 48 + 52
  else if c = '-' then 62
  else 63

/-- Decode an unpadded base64url character list back to bytes (total; on the
image of `b64urlNoPad` it is the left inverse proved below). -/
def b64NoPadDecode : List Char → List Nat
  | c1 :: c2 :: c3 :: c4 :: rest =>
    (b64DecodeChar c1 * 4 + b64DecodeChar c2 / 16) ::
    ((b64DecodeChar c2 % 16) * 16 + b64DecodeChar c3 / 4) ::
    ((b64DecodeChar c3 % 4) * 64 + b64DecodeChar c4) :: b64NoPadDecode rest
  | [c1, c2, c3] =>
    [b64DecodeChar c1 * 4 + b64DecodeChar c2 / 16,
     (b64DecodeChar c2 % 16) * 16 + b64DecodeChar c3 / 4]
  | [c1, c2] =>
    [b64DecodeChar c1 * 4 + b64DecodeChar c2 / 16]
  | _ => []

/-! ## Concrete states used by the counterexamples and witnesses -/

/-- The private half of the server keypair in the examples. -/
def keyEx : RSAPrivateKey := (keypairOf 0).1

/-- A registered client `A` whose `grant_types` list is empty. -/
def clientA : OAuthClient :=
  { client_id := "A", client_secret := "sA", client_name := "client a",
    redirect_uris := ["http://x/cb"], grant_types := [],
    registration_access_token := "rat", created_at := "t0" }

/-- An unused authorization code stored for a *different* client `B`. -/
def acB : AuthorizationCode :=
  { code := "cB", client_id := "B", redirect_uri := "http://x/cb",
    code_challenge := none, code_challenge_method := "plain",
    scope := "mcp:tools", created_at := "t1" }

/-- Storage with client `A` and the code `cB` held by client `B`. -/
def csC2 : ClientStorage :=
  { has_storage_path := false, clients := [("A", clientA)],
    auth_codes := [("cB", acB)], file := [] }

/-- A token request by client `A` presenting client `B`'s code. -/
def fC2 : TokenForm :=
  { grant_type := some "authorization_code", client_id := some "A",
    client_secret := some "sA", code := some "cB",
    redirect_uri := some "http://x/cb" }

/-- An unused code for client `A` stored with the unsupported challenge
method `"bogus"`. -/
def acC6 : AuthorizationCode :=
  { code := "c6", client_id := "A", redirect_uri := "http://x/cb",
    code_challenge := some "xyz", code_challenge_method := "bogus",
    scope := "mcp:tools", created_at := "t1" }

/-- Storage with client `A` and the `"bogus"`-method code. -/
def csC6 : ClientStorage :=
  { has_storage_path := false, clients := [("A", clientA)],
    auth_codes := [("c6", acC6)], file := [] }

/-- Client `A` exchanging the `"bogus"`-method code, presenting the stored
challenge string itself as the verifier. -/
def fC6 : TokenForm :=
  { grant_type := some "authorization_code", client_id := some "A",
    client_secret := some "sA", code := some "c6",
    redirect_uri := some "http://x/cb", code_verifier := some "xyz" }

/-- An unused, PKCE-less code for client `A`. -/
def acC3 : AuthorizationCode :=
  { code := "c3", client_id := "A", redirect_uri := "http://x/cb",
    code_challenge := none, code_challenge_method := "plain",
    scope := "mcp:tools", created_at := "t1" }

/-- Storage with client `A` and the code `c3`. -/
def csC3 : ClientStorage :=
  { has_storage_path := false, clients := [("A", clientA)],
    auth_codes := [("c3", acC3)], file := [] }

/-- A valid exchange of `c3` by client `A`. -/
def fC3 : TokenForm :=
  { grant_type := some "authorization_code", client_id := some "A",
    client_secret := some "sA", code := some "c3",
    redirect_uri := some "http://x/cb" }

/-- File-backed storage holding client `A` (file in sync), no codes yet. -/
def csC7 : ClientStorage :=
  { has_storage_path := true, clients := [("A", clientA)],
    auth_codes := [], file := [("A", clientA)] }

/-- A client-credentials token request by client `A` with correct secret. -/
def fCC : TokenForm :=
  { grant_type := some "client_credentials", client_id := some "A",
    client_secret := some "sA" }

/-- A client-credentials token request by client `A` with a wrong secret. -/
def fCCBad : TokenForm :=
  { grant_type := some "client_credentials", client_id := some "A",
    client_secret := some "wrong" }

/-! ## Association-list lemmas -/

/-- Looking up a key just assigned returns the assigned value. -/
theorem alistGet_set_self (l : List (String × α)) (k : String) (v : α) :
    alistGet (alistSet l k v) k = some v := by
  induction l with
  | nil => simp [alistSet, alistGet]
  | cons p rest ih =>
    by_cases h : p.1 = k
    · simp [alistSet, alistGet, h]
    · simp [alistSet, alistGet, h, ih]

/-! ## C1: a stored authorization code is consumed at most once
(sequentially) -/

/-- C1.  After `store_authorization_code` inserts a code, the first
`get_authorization_code` returns the stored `AuthorizationCode` (with
`used = false`); `mark_code_as_used` then returns `True`; and afterwards
every `get_authorization_code` of that code returns `None` — also after a
further `mark_code_as_used` — so a second sequential exchange of the same
code fails as not-found-or-used. -/
theorem authorization_code_single_use (s : ClientStorage)
    (code client_id redirect_uri : String) (code_challenge : Option String)
    (code_challenge_method scope created_at : String) :
    ((s.store_authorization_code code client_id redirect_uri code_challenge
        code_challenge_method scope created_at).1.get_authorization_code code =
      some (s.store_authorization_code code client_id redirect_uri
        code_challenge code_challenge_method scope created_at).2)
    ∧ ((s.store_authorization_code code client_id redirect_uri code_challenge
        code_challenge_method scope created_at).2.used = false)
    ∧ (((s.store_authorization_code code client_id redirect_uri code_challenge
        code_challenge_method scope created_at).1.mark_code_as_used code).2 = true)
    ∧ ((((s.store_authorization_code code client_id redirect_uri code_challenge
        code_challenge_method scope created_at).1.mark_code_as_used code).1.get_authorization_code
        code) = none)
    ∧ (((((s.store_authorization_code code client_id redirect_uri code_challenge
        code_challenge_method scope created_at).1.mark_code_as_used code).1.mark_code_as_used
        code).1.get_authorization_code code) = none) := by
  simp [ClientStorage.store_authorization_code,
    ClientStorage.get_authorization_code, ClientStorage.mark_code_as_used,
    alistGet_set_self]

/-! ## C7: persisted-file write-back on mutation -/

/-- C7 counterexample.  On file-backed storage, `store_authorization_code`
changes the in-memory code dict but leaves the persisted file untouched
(and a later `mark_code_as_used` leaves it untouched too): after these
mutations the durable store does not reflect the current authorization
codes, refuting the claim that every mutating operation (including
`store_authorization_code` and `mark_code_as_used`) performs the
write-back and that the one durable store covers clients *and* codes. -/
theorem auth_code_not_persisted :
    csC7.has_storage_path = true
    ∧ (csC7.store_authorization_code "c3" "A" "http://x/cb" none "plain"
        "mcp:tools" "t1").1.file = csC7.file
    ∧ (csC7.store_authorization_code "c3" "A" "http://x/cb" none "plain"
        "mcp:tools" "t1").1.auth_codes ≠ csC7.auth_codes
    ∧ ((csC7.store_authorization_code "c3" "A" "http://x/cb" none "plain"
        "mcp:tools" "t1").1.mark_code_as_used "c3").1.file = csC7.file := by
  decide

/-- C7 amended.  Of the four mutating operations, `create_client` and
`delete_client` (when it deletes) write the persisted file inside their
critical section, leaving it equal to the serialized clients dict;
`store_authorization_code` and `mark_code_as_used` never touch the file, so
authorization codes live in memory only and the durable store holds clients
only. -/
theorem persistence_write_back (s : ClientStorage)
    (cid sec name : String) (rus gts : List String) (rat ts : String)
    (code ccid ruri : String) (ch : Option String) (m sc cts : String) :
    (s.has_storage_path = true →
      (s.create_client cid sec name rus gts rat ts).1.file =
        (s.create_client cid sec name rus gts rat ts).1.clients)
    ∧ (s.has_storage_path = true → (s.delete_client cid).2 = true →
        (s.delete_client cid).1.file = (s.delete_client cid).1.clients)
    ∧ (s.store_authorization_code code ccid ruri ch m sc cts).1.file = s.file
    ∧ (s.mark_code_as_used code).1.file = s.file := by
  refine ⟨fun h => ?_, fun h hd => ?_, ?_, ?_⟩
  · simp [ClientStorage.create_client, ClientStorage.save_to_file, h]
  · by_cases hc : s.clients.any (fun p => p.1 == cid)
    · simp [ClientStorage.delete_client, ClientStorage.save_to_file, h, hc]
    · simp [ClientStorage.delete_client, hc] at hd
  · simp [ClientStorage.store_authorization_code]
  · unfold ClientStorage.mark_code_as_used
    cases alistGet s.auth_codes code <;> simp

/-- Witness for `persistence_write_back` at the concrete file-backed
storage `csC7`. -/
theorem persistence_write_back_witness :
    (csC7.create_client "B" "sB" "client b" [] [] "r" "t2").1.file =
      (csC7.create_client "B" "sB" "client b" [] [] "r" "t2").1.clients
    ∧ (csC7.delete_client "A").1.file = (csC7.delete_client "A").1.clients := by
  have h := persistence_write_back csC7 "A" "sB" "client b" [] [] "r" "t2"
    "c" "A" "u" none "plain" "mcp:tools" "t3"
  have h2 := persistence_write_back csC7 "B" "sB" "client b" [] [] "r" "t2"
    "c" "A" "u" none "plain" "mcp:tools" "t3"
  exact ⟨h2.1 (by decide), h.2.1 (by decide) (by decide)⟩

/-! ## C10: registration defaulting of empty/omitted lists -/

/-- C10.  At registration an explicitly supplied empty `grant_types` list is
treated exactly like an omitted one (pydantic fills the default
`["client_credentials"]` on omission, and the endpoint's `or` fallback maps
the empty list there too): the stored client's `grant_types` become
`["client_credentials"]`; and omitted `redirect_uris` are stored as `[]`. -/
theorem register_empty_grant_types_defaulted (s : ClientStorage)
    (name : String) (ruris : Option (List String)) (team sc : Option String)
    (cid sec rat ts : String) :
    register_endpoint_route s
        { client_name := name, redirect_uris := ruris, grant_types := some [],
          token_endpoint_auth_method := team, scope := sc } cid sec rat ts =
      register_endpoint_route s
        { client_name := name, redirect_uris := ruris,
          grant_types := some ["client_credentials"],
          token_endpoint_auth_method := team, scope := sc } cid sec rat ts
    ∧ (register_endpoint_route s
        { client_name := name, redirect_uris := none, grant_types := some [],
          token_endpoint_auth_method := team, scope := sc } cid sec rat
        ts).1.grant_types = ["client_credentials"]
    ∧ (register_endpoint_route s
        { client_name := name, redirect_uris := none, grant_types := some [],
          token_endpoint_auth_method := team, scope := sc } cid sec rat
        ts).1.redirect_uris = []
    ∧ (register_endpoint_route s
        { client_name := name, redirect_uris := none, grant_types := some [],
          token_endpoint_auth_method := team, scope := sc } cid sec rat
        ts).2.get_client cid =
      some { client_id := cid, client_secret := sec, client_name := name,
             redirect_uris := [], grant_types := ["client_credentials"],
             registration_access_token := rat, created_at := ts } := by
  refine ⟨rfl, rfl, rfl, ?_⟩
  simp [register_endpoint_route, pyOrList, ClientStorage.create_client,
    ClientStorage.get_client, ClientStorage.save_to_file]
  by_cases h : s.has_storage_path <;> simp [h, alistGet_set_self]

/-! ## C8: token endpoint, client_credentials grant and unsupported grants -/

/-- C8.  `POST /token` with `grant_type=client_credentials`: exactly matching
credentials yield the 200 body with an access token, `token_type "Bearer"`,
`expires_in 3600` and the requested scope (default `"mcp:tools"`); an
unknown client or a mismatched secret yields 401 `invalid_client`; any
`grant_type` other than the two supported ones yields 400
`unsupported_grant_type`. -/
theorem token_client_credentials_contract (s : ClientStorage)
    (key : RSAPrivateKey) (now : Int) (f : TokenForm) :
    (f.grant_type = some "client_credentials" →
      (∀ cid sec c, f.client_id = some cid → f.client_secret = some sec →
        s.get_client cid = some c → c.client_secret = sec →
        token_endpoint_route s key now f =
          (.success
            { access_token := create_access_token cid ISSUER AUDIENCE key
                DEFAULT_KID 3600 (f.scope.getD "mcp:tools") now,
              token_type := "Bearer", expires_in := 3600,
              scope := f.scope.getD "mcp:tools" }, s))
      ∧ (∀ cid, f.client_id = some cid → s.get_client cid = none →
          token_endpoint_route s key now f = (.error 401 "invalid_client", s))
      ∧ (∀ cid sec c, f.client_id = some cid → f.client_secret = some sec →
          s.get_client cid = some c → c.client_secret ≠ sec →
          token_endpoint_route s key now f = (.error 401 "invalid_client", s)))
    ∧ (f.grant_type ≠ some "client_credentials" →
        f.grant_type ≠ some "authorization_code" →
        token_endpoint_route s key now f =
          (.error 400 "unsupported_grant_type", s)) := by
  constructor
  · intro hg
    refine ⟨?_, ?_, ?_⟩
    · intro cid sec c hcid hsec hc hsecm
      simp [token_endpoint_route, hg, hcid, hsec,
        ClientStorage.validate_credentials_form,
        ClientStorage.validate_credentials, hc, hsecm]
    · intro cid hcid hc
      cases hsec : f.client_secret with
      | none =>
        simp [token_endpoint_route, hg, hcid, hsec,
          ClientStorage.validate_credentials_form]
      | some sec =>
        simp [token_endpoint_route, hg, hcid, hsec,
          ClientStorage.validate_credentials_form,
          ClientStorage.validate_credentials, hc]
    · intro cid sec c hcid hsec hc hsecm
      simp [token_endpoint_route, hg, hcid, hsec,
        ClientStorage.validate_credentials_form,
        ClientStorage.validate_credentials, hc, hsecm]
  · intro h1 h2
    simp [token_endpoint_route, h1, h2]

/-- Witness for `token_client_credentials_contract`: client `A`'s request
succeeds with a Bearer token at the default scope, the wrong secret is
rejected 401, and a bogus grant type is rejected 400. -/
theorem token_client_credentials_contract_witness :
    token_endpoint_route csC3 keyEx 0 fCC =
      (.success
        { access_token := create_access_token "A" ISSUER AUDIENCE keyEx
            DEFAULT_KID 3600 "mcp:tools" 0,
          token_type := "Bearer", expires_in := 3600, scope := "mcp:tools" },
        csC3)
    ∧ token_endpoint_route csC3 keyEx 0 fCCBad = (.error 401 "invalid_client", csC3)
    ∧ token_endpoint_route csC3 keyEx 0
        { fCC with grant_type := some "password" } =
      (.error 400 "unsupported_grant_type", csC3) := by
  have h := token_client_credentials_contract csC3 keyEx 0 fCC
  have hbad := token_client_credentials_contract csC3 keyEx 0 fCCBad
  have hpw := token_client_credentials_contract csC3 keyEx 0
    { fCC with grant_type := some "password" }
  refine ⟨?_, ?_, ?_⟩
  · exact (h.1 rfl).1 "A" "sA" clientA rfl rfl (by decide) rfl
  · exact (hbad.1 rfl).2.2 "A" "wrong" clientA rfl rfl (by decide) (by decide)
  · exact hpw.2 (by decide) (by decide)

/-! ## C9: the token endpoint never consults the client's grant_types -/

/-- C9.  Token issuance never reads the registered client's `grant_types`
list: a client whose credentials validate is issued a token for
`grant_type=client_credentials`, and — given a valid code — for
`grant_type=authorization_code`, even when that grant type is absent from
its stored `grant_types`. -/
theorem grant_types_not_consulted (s : ClientStorage) (key : RSAPrivateKey)
    (now : Int) (f : TokenForm) (cid sec : String) (c : OAuthClient)
    (hcid : f.client_id = some cid) (hsec : f.client_secret = some sec)
    (hc : s.get_client cid = some c) (hsecm : c.client_secret = sec) :
    (f.grant_type = some "client_credentials" →
      "client_credentials" ∉ c.grant_types →
      token_endpoint_route s key now f =
        (.success
          { access_token := create_access_token cid ISSUER AUDIENCE key
              DEFAULT_KID 3600 (f.scope.getD "mcp:tools") now,
            token_type := "Bearer", expires_in := 3600,
            scope := f.scope.getD "mcp:tools" }, s))
    ∧ (∀ ac, f.grant_type = some "authorization_code" →
        "authorization_code" ∉ c.grant_types →
        truthy f.code = true → truthy f.redirect_uri = true →
        s.get_authorization_code (f.code.getD "") = some ac →
        f.client_id = some ac.client_id →
        f.redirect_uri = some ac.redirect_uri →
        pkceCheck ac f.code_verifier = none →
        token_endpoint_route s key now f =
          (.success
            { access_token := create_access_token cid ISSUER AUDIENCE key
                DEFAULT_KID 3600 ac.scope now,
              token_type := "Bearer", expires_in := 3600,
              scope := ac.scope }, (s.mark_code_as_used (f.code.getD "")).1)) := by
  constructor
  · intro hg _
    simp [token_endpoint_route, hg, hcid, hsec,
      ClientStorage.validate_credentials_form,
      ClientStorage.validate_credentials, hc, hsecm]
  · intro ac hg _ htc htr hget hacc hacr hpk
    simp [token_endpoint_route, hg, hcid, hsec, htc, htr, hget, hpk,
      ClientStorage.validate_credentials_form,
      ClientStorage.validate_credentials, hc, hsecm, ← hacc, ← hacr, hcid]

/-- Witness for `grant_types_not_consulted`: client `A` has
`grant_types = []`, yet both grants issue tokens. -/
theorem grant_types_not_consulted_witness :
    clientA.grant_types = []
    ∧ token_endpoint_route csC3 keyEx 0 fCC =
      (.success
        { access_token := create_access_token "A" ISSUER AUDIENCE keyEx
            DEFAULT_KID 3600 "mcp:tools" 0,
          token_type := "Bearer", expires_in := 3600, scope := "mcp:tools" },
        csC3)
    ∧ token_endpoint_route csC3 keyEx 0 fC3 =
      (.success
        { access_token := create_access_token "A" ISSUER AUDIENCE keyEx
            DEFAULT_KID 3600 "mcp:tools" 0,
          token_type := "Bearer", expires_in := 3600, scope := "mcp:tools" },
        (csC3.mark_code_as_used "c3").1) := by
  have hcc := grant_types_not_consulted csC3 keyEx 0 fCC "A" "sA" clientA
    rfl rfl (by decide) rfl
  have hac := grant_types_not_consulted csC3 keyEx 0 fC3 "A" "sA" clientA
    rfl rfl (by decide) rfl
  refine ⟨rfl, hcc.1 rfl (by decide), ?_⟩
  have := hac.2 acC3 rfl (by decide) (by decide) (by decide) (by decide)
    rfl rfl (by decide)
  simpa using this

/-! ## C5: issued-token claims round-trip through verification -/

/-- C5.  `create_access_token(client_id, issuer, audience, ...)` builds
exactly the claim set
`{iss = issuer, sub = client_id, aud = audience, iat = now,
exp = now + ttl, scope}`; `verify_token` with the matching public key and
the same issuer and audience accepts the token while `exp` lies in the
future and returns those claims; and verification fails at or after `exp` —
in particular already at issuance time for a zero or negative TTL. -/
theorem access_token_claims_verify (client_id issuer audience : String)
    (k : Nat) (kid : String) (ttl : Int) (scope : String) (now : Int) :
    (create_access_token client_id issuer audience (keypairOf k).1 kid ttl
        scope now).claims =
      { iss := issuer, sub := client_id, aud := audience, iat := now,
        exp := now + ttl, scope := scope }
    ∧ (0 < ttl →
        verify_token
          (create_access_token client_id issuer audience (keypairOf k).1 kid
            ttl scope now) (keypairOf k).2 issuer audience now =
        some { iss := issuer, sub := client_id, aud := audience, iat := now,
               exp := now + ttl, scope := scope })
    ∧ (∀ t : Int, now + ttl ≤ t →
        verify_token
          (create_access_token client_id issuer audience (keypairOf k).1 kid
            ttl scope now) (keypairOf k).2 issuer audience t = none)
    ∧ (ttl ≤ 0 →
        verify_token
          (create_access_token client_id issuer audience (keypairOf k).1 kid
            ttl scope now) (keypairOf k).2 issuer audience now = none) := by
  refine ⟨rfl, fun h => ?_, fun t ht => ?_, fun h => ?_⟩
  · have hlt : now < now + ttl := by omega
    simp [verify_token, create_access_token, keypairOf, hlt]
  · have hlt : ¬ (t < now + ttl) := by omega
    simp [verify_token, create_access_token, keypairOf, hlt]
  · have hlt : ¬ (now < now + ttl) := by omega
    simp [verify_token, create_access_token, keypairOf, hlt]

/-- Witness for `access_token_claims_verify`: a one-hour token verifies at
issuance time, and a zero-TTL token already fails. -/
theorem access_token_claims_verify_witness :
    verify_token
        (create_access_token "A" ISSUER AUDIENCE (keypairOf 0).1 DEFAULT_KID
          3600 "mcp:tools" 1000) (keypairOf 0).2 ISSUER AUDIENCE 1000 =
      some { iss := ISSUER, sub := "A", aud := AUDIENCE, iat := 1000,
             exp := 1000 + 3600, scope := "mcp:tools" }
    ∧ verify_token
        (create_access_token "A" ISSUER AUDIENCE (keypairOf 0).1 DEFAULT_KID
          0 "mcp:tools" 1000) (keypairOf 0).2 ISSUER AUDIENCE 1000 = none := by
  have h1 := access_token_claims_verify "A" ISSUER AUDIENCE 0 DEFAULT_KID
    3600 "mcp:tools" 1000
  have h0 := access_token_claims_verify "A" ISSUER AUDIENCE 0 DEFAULT_KID
    0 "mcp:tools" 1000
  exact ⟨h1.2.1 (by decide), h0.2.2.2 (by decide)⟩

/-! ## C2: order of checks in the authorization_code token exchange -/

/-- C2 counterexample.  In the request `fC2`, every check the claim lists
passes — the credentials validate (1), the code is found and unused (2),
the presented `redirect_uri` equals the stored one exactly (3), and the
code carries no challenge so PKCE is not required (4) — yet the endpoint
answers 400 `invalid_grant` instead of issuing a token, because of a
`client_id`-match check the claim does not list (the code was stored for
client `B`, the requester is client `A`).  The claimed five-step contract
is therefore not the endpoint's behaviour. -/
theorem token_auth_code_claimed_order_refuted :
    csC2.validate_credentials_form fC2.client_id fC2.client_secret = true
    ∧ csC2.get_authorization_code "cB" = some acB
    ∧ fC2.redirect_uri = some acB.redirect_uri
    ∧ acB.code_challenge = none
    ∧ token_endpoint_route csC2 keyEx 0 fC2 =
        (.error 400 "invalid_grant", csC2) := by
  decide

/-- C2 amended.  The authorization_code path checks, in order, each failure
short-circuiting the rest: (0) missing or empty `code`/`redirect_uri` →
`invalid_request`/400, *before* any credential check; (1) client
credentials → `invalid_client`/401; (2) code lookup — not-found-or-used →
`invalid_grant`/400 (the code is only marked used after all checks pass);
(2b) the code's stored `client_id` must equal the presented one →
`invalid_grant`; (3) `redirect_uri` exact match → `invalid_grant`; (4) if
the code has a non-empty challenge: a missing or empty `code_verifier` →
`invalid_request`/400, a failed verification → `invalid_grant`; (5) only
then mark the code used and issue a token carrying the code's stored
scope. -/
theorem token_auth_code_check_order (s : ClientStorage) (key : RSAPrivateKey)
    (now : Int) (f : TokenForm)
    (hg : f.grant_type = some "authorization_code") :
    (truthy f.code = false ∨ truthy f.redirect_uri = false →
      token_endpoint_route s key now f = (.error 400 "invalid_request", s))
    ∧ (truthy f.code = true → truthy f.redirect_uri = true →
        s.validate_credentials_form f.client_id f.client_secret = false →
        token_endpoint_route s key now f = (.error 401 "invalid_client", s))
    ∧ (truthy f.code = true → truthy f.redirect_uri = true →
        s.validate_credentials_form f.client_id f.client_secret = true →
        s.get_authorization_code (f.code.getD "") = none →
        token_endpoint_route s key now f = (.error 400 "invalid_grant", s))
    ∧ (∀ ac, truthy f.code = true → truthy f.redirect_uri = true →
        s.validate_credentials_form f.client_id f.client_secret = true →
        s.get_authorization_code (f.code.getD "") = some ac →
        f.client_id ≠ some ac.client_id →
        token_endpoint_route s key now f = (.error 400 "invalid_grant", s))
    ∧ (∀ ac, truthy f.code = true → truthy f.redirect_uri = true →
        s.validate_credentials_form f.client_id f.client_secret = true →
        s.get_authorization_code (f.code.getD "") = some ac →
        f.client_id = some ac.client_id →
        f.redirect_uri ≠ some ac.redirect_uri →
        token_endpoint_route s key now f = (.error 400 "invalid_grant", s))
    ∧ (∀ ac r, truthy f.code = true → truthy f.redirect_uri = true →
        s.validate_credentials_form f.client_id f.client_secret = true →
        s.get_authorization_code (f.code.getD "") = some ac →
        f.client_id = some ac.client_id →
        f.redirect_uri = some ac.redirect_uri →
        pkceCheck ac f.code_verifier = some r →
        token_endpoint_route s key now f = (r, s))
    ∧ (∀ ac, truthy f.code = true → truthy f.redirect_uri = true →
        s.validate_credentials_form f.client_id f.client_secret = true →
        s.get_authorization_code (f.code.getD "") = some ac →
        f.client_id = some ac.client_id →
        f.redirect_uri = some ac.redirect_uri →
        pkceCheck ac f.code_verifier = none →
        token_endpoint_route s key now f =
          (.success
            { access_token := create_access_token ac.client_id ISSUER
                AUDIENCE key DEFAULT_KID 3600 ac.scope now,
              token_type := "Bearer", expires_in := 3600,
              scope := ac.scope }, (s.mark_code_as_used (f.code.getD "")).1))
    ∧ (∀ ac ch, ac.code_challenge = some ch → ch ≠ "" →
        truthy f.code_verifier = false →
        pkceCheck ac f.code_verifier = some (.error 400 "invalid_request"))
    ∧ (∀ ac ch v, ac.code_challenge = some ch → ch ≠ "" →
        f.code_verifier = some v → v ≠ "" →
        (if ac.code_challenge_method = "S256" then s256Challenge v else v) ≠ ch →
        pkceCheck ac f.code_verifier = some (.error 400 "invalid_grant")) := by
  refine ⟨?_, ?_, ?_, ?_, ?_, ?_, ?_, ?_, ?_⟩
  · rintro (h | h) <;> simp [token_endpoint_route, hg, h]
  · intro h1 h2 h3
    simp [token_endpoint_route, hg, h1, h2, h3]
  · intro h1 h2 h3 h4
    simp [token_endpoint_route, hg, h1, h2, h3, h4]
  · intro ac h1 h2 h3 h4 h5
    simp [token_endpoint_route, hg, h1, h2, h3, h4, h5]
  · intro ac h1 h2 h3 h4 h5 h6
    rw [h5] at h3
    simp [token_endpoint_route, hg, h1, h2, h3, h4, h5, h6]
  · intro ac r h1 h2 h3 h4 h5 h6 h7
    rw [h5] at h3
    rw [h6] at h2
    simp [token_endpoint_route, hg, h1, h2, h3, h4, h5, h6, h7]
  · intro ac h1 h2 h3 h4 h5 h6 h7
    rw [h5] at h3
    rw [h6] at h2
    simp [token_endpoint_route, hg, h1, h2, h3, h4, h5, h6, h7]
  · intro ac ch hch hne hv
    simp [pkceCheck, hch, hne, hv]
  · intro ac ch v hch hne hv hvne hcomp
    simp [pkceCheck, hch, hne, hv, truthy, hvne, hcomp]

/-- Witness for `token_auth_code_check_order`: client `A`'s valid exchange
of its own code `c3` reaches step (5) and is issued a Bearer token with the
code's stored scope, the code becoming used. -/
theorem token_auth_code_check_order_witness :
    token_endpoint_route csC3 keyEx 0 fC3 =
      (.success
        { access_token := create_access_token acC3.client_id ISSUER AUDIENCE
            keyEx DEFAULT_KID 3600 acC3.scope 0,
          token_type := "Bearer", expires_in := 3600, scope := acC3.scope },
        (csC3.mark_code_as_used "c3").1) := by
  have h := token_auth_code_check_order csC3 keyEx 0 fC3 rfl
  exact h.2.2.2.2.2.2.1 acC3 (by decide) (by decide) (by decide) (by decide)
    rfl rfl (by decide)

/-! ## C6: unsupported code_challenge_method values -/

/-- C6 counterexample.  The code `c6` is stored with
`code_challenge_method = "bogus"` — neither `S256` nor `plain` — yet the
exchange is not rejected with `invalid_request`: the endpoint falls into
the `else:  # plain` branch, compares the verifier directly to the stored
challenge, and issues a token. -/
theorem unsupported_method_not_rejected :
    acC6.code_challenge_method = "bogus"
    ∧ acC6.code_challenge_method ≠ "S256"
    ∧ acC6.code_challenge_method ≠ "plain"
    ∧ token_endpoint_route csC6 keyEx 0 fC6 =
      (.success
        { access_token := create_access_token "A" ISSUER AUDIENCE keyEx
            DEFAULT_KID 3600 "mcp:tools" 0,
          token_type := "Bearer", expires_in := 3600, scope := "mcp:tools" },
        (csC6.mark_code_as_used "c6").1) := by
  decide

/-- C6 amended.  A stored `code_challenge_method` other than `"S256"` —
including unsupported values — is treated exactly like `"plain"`: with a
non-empty stored challenge and a non-empty presented verifier, the PKCE
block compares the verifier directly to the challenge, returning no error
on equality and `invalid_grant` on mismatch; it never returns
`invalid_request` for the unsupported method itself. -/
theorem unsupported_method_treated_as_plain (ac : AuthorizationCode)
    (ch v : String) (hm : ac.code_challenge_method ≠ "S256")
    (hch : ac.code_challenge = some ch) (hne : ch ≠ "") (hv : v ≠ "") :
    pkceCheck ac (some v) =
      if v = ch then none else some (.error 400 "invalid_grant") := by
  by_cases h : v = ch <;>
    simp [pkceCheck, hch, hne, truthy, hv, hm, h]

/-- Witness for `unsupported_method_treated_as_plain` at the
`"bogus"`-method code `acC6`. -/
theorem unsupported_method_treated_as_plain_witness :
    pkceCheck acC6 (some "xyz") = none
    ∧ pkceCheck acC6 (some "zzz") = some (.error 400 "invalid_grant") := by
  have h1 := unsupported_method_treated_as_plain acC6 "xyz" "xyz"
    (by decide) (by decide) (by decide) (by decide)
  have h2 := unsupported_method_treated_as_plain acC6 "xyz" "zzz"
    (by decide) (by decide) (by decide) (by decide)
  refine ⟨?_, ?_⟩
  · rw [h1]; rfl
  · rw [h2]; rfl

/-! ## C3: concurrent consumption of the same code -/

/-- The interleaving model is faithful: a thread scheduled to run its three
storage steps without interference produces exactly the response and final
storage of `token_endpoint_route` on the same request. -/
theorem threadSteps_seq_faithful (s : ClientStorage) (key : RSAPrivateKey)
    (now : Int) (f : TokenForm) (t2 : ExchangeThread)
    (hg : f.grant_type = some "authorization_code") :
    (runSchedule key now [true, true, true] s (initThread f) t2).2.1.result =
      some (token_endpoint_route s key now f).1
    ∧ (runSchedule key now [true, true, true] s (initThread f) t2).1 =
      (token_endpoint_route s key now f).2 := by
  simp only [runSchedule, threadStep, initThread, token_endpoint_route, hg]
  by_cases h1 : !(truthy f.code) || !(truthy f.redirect_uri)
  · simp [h1]
  · by_cases h2 : !(s.validate_credentials_form f.client_id f.client_secret)
    · simp [h1, h2]
    · simp only [h1, h2, Bool.false_eq_true, if_false, if_true, ite_false,
        ite_true]
      cases hget : s.get_authorization_code (f.code.getD "") with
      | none => simp [h1, h2, hget]
      | some ac =>
        by_cases h3 : f.client_id ≠ some ac.client_id
        · simp [h1, h2, hget, h3]
        · by_cases h4 : f.redirect_uri ≠ some ac.redirect_uri
          · simp [h1, h2, hget, h3, h4]
          · cases hpk : pkceCheck ac f.code_verifier with
            | some err => simp [h1, h2, hget, h3, h4, hpk]
            | none => simp [h1, h2, hget, h3, h4, hpk]

/-- C3 is violated by the code: `get_authorization_code` and
`mark_code_as_used` are separate critical sections, so under the
interleaving in which both threads run their `get_authorization_code`
before either runs `mark_code_as_used`, both concurrent exchanges of the
same code `c3` observe a valid code and both obtain tokens — not exactly
one. -/
theorem concurrent_double_spend :
    isTokenSuccess
        (runSchedule keyEx 0 [true, false, true, false, true, false] csC3
          (initThread fC3) (initThread fC3)).2.1.result = true
    ∧ isTokenSuccess
        (runSchedule keyEx 0 [true, false, true, false, true, false] csC3
          (initThread fC3) (initThread fC3)).2.2.result = true := by
  decide

/-! ## SHA-256 digest shape lemmas -/

/-- `beBytes` produces exactly `n` bytes. -/
theorem beBytes_length (n x : Nat) : (beBytes n x).length = n := by
  induction n generalizing x with
  | zero => rfl
  | succ n ih => simp [beBytes, ih]

/-- Every entry of `beBytes` is a byte. -/
theorem beBytes_lt (n x : Nat) : ∀ b ∈ beBytes n x, b < 256 := by
  induction n generalizing x with
  | zero => simp [beBytes]
  | succ n ih =>
    intro b hb
    simp only [beBytes, List.mem_append, List.mem_singleton] at hb
    rcases hb with hb | hb
    · exact ih _ b hb
    · subst hb; exact Nat.mod_lt _ (by decide)

/-- A compression round preserves the state length. -/
theorem sha256Round_length (st : List Nat) (kw : Nat × Nat) :
    (sha256Round st kw).length = st.length := by
  unfold sha256Round
  split <;> simp

/-- The 64 rounds preserve the state length. -/
theorem foldl_sha256Round_length (l : List (Nat × Nat)) (st : List Nat) :
    (l.foldl sha256Round st).length = st.length := by
  induction l generalizing st with
  | nil => rfl
  | cons kw rest ih => simp [List.foldl, ih, sha256Round_length]

/-- Processing a block preserves the 8-word state shape. -/
theorem sha256Block_length (st block : List Nat) (h : st.length = 8) :
    (sha256Block st block).length = 8 := by
  simp [sha256Block, foldl_sha256Round_length, h]

/-- Folding over all blocks preserves the 8-word state shape. -/
theorem foldl_sha256Block_length (blocks : List (List Nat)) (st : List Nat)
    (h : st.length = 8) : (blocks.foldl sha256Block st).length = 8 := by
  induction blocks generalizing st with
  | nil => exact h
  | cons b rest ih => exact ih _ (sha256Block_length _ _ h)

/-- Flattening 4-byte groups of an 8-word state gives 32 bytes. -/
theorem flatten_beBytes_length (l : List Nat) :
    ((l.map (beBytes 4)).flatten).length = 4 * l.length := by
  induction l with
  | nil => rfl
  | cons x rest ih => simp [ih, beBytes_length]; ring

/-- A SHA-256 digest has exactly 32 bytes. -/
theorem sha256_length (msg : List Nat) : (sha256 msg).length = 32 := by
  unfold sha256
  rw [flatten_beBytes_length, foldl_sha256Block_length _ _ (by rfl)]

/-- A SHA-256 digest is nonempty. -/
theorem sha256_ne_nil (msg : List Nat) : sha256 msg ≠ [] := by
  intro h
  have := sha256_length msg
  rw [h] at this
  exact absurd this (by decide)

/-- Every entry of a SHA-256 digest is a byte. -/
theorem sha256_lt (msg : List Nat) : ∀ b ∈ sha256 msg, b < 256 := by
  intro b hb
  unfold sha256 at hb
  rw [List.mem_flatten] at hb
  obtain ⟨l, hl, hbl⟩ := hb
  rw [List.mem_map] at hl
  obtain ⟨w, _, rfl⟩ := hl
  exact beBytes_lt 4 w b hbl

/-! ## base64url decode round-trip and injectivity -/

/-- `b64DecodeChar` inverts `b64Char` on the alphabet range. -/
theorem b64DecodeChar_b64Char : ∀ n < 64, b64DecodeChar (b64Char n) = n := by
  decide

/-- No alphabet character is the padding character. -/
theorem b64Char_ne_pad : ∀ n < 64, b64Char n ≠ '=' := by
  decide

/-- `rstrip` does not touch a list ending in a non-padding character. -/
theorem rstripEq_append_single (l : List Char) (c : Char) (h : ¬ c = '=') :
    rstripEq (l ++ [c]) = l ++ [c] := by
  simp [rstripEq, List.dropWhile_cons, h]

/-- `rstrip` of an append strips only inside the right part, as long as the
right part does not strip away entirely. -/
theorem rstripEq_append (x y : List Char) (h : rstripEq y ≠ []) :
    rstripEq (x ++ y) = x ++ rstripEq y := by
  have hne : ¬ (List.dropWhile (fun c => c = '=') y.reverse).isEmpty = true := by
    intro he
    apply h
    simp only [rstripEq]
    rw [List.isEmpty_iff] at he
    simp [he]
  simp only [rstripEq, List.reverse_append, List.dropWhile_append, hne]
  simp

/-- Padding-stripped base64url decoding inverts encoding on byte lists:
the encoder loses no information. -/
theorem b64_decode_encode : ∀ (bs : List Nat), (∀ b ∈ bs, b < 256) →
    b64NoPadDecode (rstripEq (b64urlEncode bs)) = bs
  | [], _ => by simp [b64urlEncode, rstripEq, b64NoPadDecode]
  | [a], h => by
    have ha : a < 256 := h a (by simp)
    have h2 : ¬ (b64Char ((a % 4) * 16) = '=') := b64Char_ne_pad _ (by omega)
    have e1 : b64DecodeChar (b64Char (a / 4)) = a / 4 :=
      b64DecodeChar_b64Char _ (by omega)
    have e2 : b64DecodeChar (b64Char ((a % 4) * 16)) = (a % 4) * 16 :=
      b64DecodeChar_b64Char _ (by omega)
    simp [b64urlEncode, rstripEq, List.dropWhile, h2, b64NoPadDecode, e1, e2]
    omega
  | [a, b], h => by
    have ha : a < 256 := h a (by simp)
    have hb : b < 256 := h b (by simp)
    have h3 : ¬ (b64Char ((b % 16) * 4) = '=') := b64Char_ne_pad _ (by omega)
    have e1 : b64DecodeChar (b64Char (a / 4)) = a / 4 :=
      b64DecodeChar_b64Char _ (by omega)
    have e2 : b64DecodeChar (b64Char ((a % 4) * 16 + b / 16)) =
        (a % 4) * 16 + b / 16 := b64DecodeChar_b64Char _ (by omega)
    have e3 : b64DecodeChar (b64Char ((b % 16) * 4)) = (b % 16) * 4 :=
      b64DecodeChar_b64Char _ (by omega)
    simp [b64urlEncode, rstripEq, List.dropWhile, h3, b64NoPadDecode, e1, e2, e3]
    constructor <;> omega
  | a :: b :: c :: rest, h => by
    have ha : a < 256 := h a (by simp)
    have hb : b < 256 := h b (by simp)
    have hc : c < 256 := h c (by simp)
    have hrest : ∀ x ∈ rest, x < 256 := fun x hx => h x (by simp [hx])
    have ih := b64_decode_encode rest hrest
    have h4 : ¬ (b64Char (c % 64) = '=') := b64Char_ne_pad _ (by omega)
    have e1 : b64DecodeChar (b64Char (a / 4)) = a / 4 :=
      b64DecodeChar_b64Char _ (by omega)
    have e2 : b64DecodeChar (b64Char ((a % 4) * 16 + b / 16)) =
        (a % 4) * 16 + b / 16 := b64DecodeChar_b64Char _ (by omega)
    have e3 : b64DecodeChar (b64Char ((b % 16) * 4 + c / 64)) =
        (b % 16) * 4 + c / 64 := b64DecodeChar_b64Char _ (by omega)
    have e4 : b64DecodeChar (b64Char (c % 64)) = c % 64 :=
      b64DecodeChar_b64Char _ (by omega)
    cases rest with
    | nil =>
      have hr := rstripEq_append_single
        [b64Char (a / 4), b64Char ((a % 4) * 16 + b / 16),
         b64Char ((b % 16) * 4 + c / 64)] (b64Char (c % 64)) h4
      simp only [b64urlEncode] at hr ⊢
      simp only [List.append_nil, List.cons_append, List.nil_append] at hr
      rw [hr]
      simp [b64NoPadDecode, e1, e2, e3, e4]
      exact ⟨by omega, by omega, by omega⟩
    | cons r rs =>
      have hne : rstripEq (b64urlEncode (r :: rs)) ≠ [] := by
        intro hnil
        rw [hnil] at ih
        simp [b64NoPadDecode] at ih
      have hsplit : b64urlEncode (a :: b :: c :: r :: rs) =
          [b64Char (a / 4), b64Char ((a % 4) * 16 + b / 16),
           b64Char ((b % 16) * 4 + c / 64), b64Char (c % 64)] ++
          b64urlEncode (r :: rs) := rfl
      rw [hsplit, rstripEq_append _ _ hne]
      simp only [List.cons_append, List.nil_append]
      simp [b64NoPadDecode, e1, e2, e3, e4, ih]
      exact ⟨by omega, by omega, by omega⟩

/-- The padding-stripped base64url encoder is injective on byte lists. -/
theorem b64urlNoPad_injOn (bs1 bs2 : List Nat) (h1 : ∀ b ∈ bs1, b < 256)
    (h2 : ∀ b ∈ bs2, b < 256) (heq : b64urlNoPad bs1 = b64urlNoPad bs2) :
    bs1 = bs2 := by
  have hchars : rstripEq (b64urlEncode bs1) = rstripEq (b64urlEncode bs2) := by
    have := congrArg String.data heq
    simpa [b64urlNoPad] using this
  calc bs1 = b64NoPadDecode (rstripEq (b64urlEncode bs1)) :=
        (b64_decode_encode bs1 h1).symm
    _ = b64NoPadDecode (rstripEq (b64urlEncode bs2)) := by rw [hchars]
    _ = bs2 := b64_decode_encode bs2 h2

/-- A nonempty byte list has a nonempty padding-stripped encoding. -/
theorem b64urlNoPad_ne_empty (bs : List Nat) (h : ∀ b ∈ bs, b < 256)
    (hne : bs ≠ []) : b64urlNoPad bs ≠ "" := by
  intro he
  apply hne
  have hchars : rstripEq (b64urlEncode bs) = [] := by
    have := congrArg String.data he
    simpa [b64urlNoPad] using this
  have := b64_decode_encode bs h
  rw [hchars] at this
  simpa [b64NoPadDecode] using this.symm

/-! ## C4: generated PKCE pairs verify under S256 -/

/-- C4.  For every pair `(verifier, challenge)` produced by
`generate_pkce_pair`, the challenge is the padding-stripped
base64url(SHA-256(verifier)), so the token endpoint's S256 recomputation
from that verifier compares equal (PKCE block passes); and any `verifier2`
whose SHA-256 digest differs from the verifier's recomputes to a different
challenge, so S256 verification against the same stored challenge fails
with `invalid_grant`. -/
theorem pkce_pair_verifies (randomBytes : List Nat) (verifier2 : String)
    (hbytes : ∀ b ∈ randomBytes, b < 256) :
    (generate_pkce_pair randomBytes).2 =
      s256Challenge (generate_pkce_pair randomBytes).1
    ∧ (sha256 (strBytes verifier2) ≠
        sha256 (strBytes (generate_pkce_pair randomBytes).1) →
        s256Challenge verifier2 ≠ (generate_pkce_pair randomBytes).2)
    ∧ (∀ ac : AuthorizationCode,
        ac.code_challenge = some (generate_pkce_pair randomBytes).2 →
        ac.code_challenge_method = "S256" →
        randomBytes ≠ [] →
        pkceCheck ac (some (generate_pkce_pair randomBytes).1) = none
        ∧ (verifier2 ≠ "" →
            sha256 (strBytes verifier2) ≠
              sha256 (strBytes (generate_pkce_pair randomBytes).1) →
            pkceCheck ac (some verifier2) =
              some (.error 400 "invalid_grant"))) := by
  have hchal : (generate_pkce_pair randomBytes).2 =
      s256Challenge (generate_pkce_pair randomBytes).1 := rfl
  have hdiff : sha256 (strBytes verifier2) ≠
      sha256 (strBytes (generate_pkce_pair randomBytes).1) →
      s256Challenge verifier2 ≠ (generate_pkce_pair randomBytes).2 := by
    intro hne heq
    apply hne
    apply b64urlNoPad_injOn _ _ (sha256_lt _) (sha256_lt _)
    simpa [s256Challenge, generate_pkce_pair] using heq
  refine ⟨hchal, hdiff, ?_⟩
  intro ac hch hm hrb
  have hv : (generate_pkce_pair randomBytes).1 ≠ "" :=
    b64urlNoPad_ne_empty randomBytes hbytes hrb
  have hchne : (generate_pkce_pair randomBytes).2 ≠ "" := by
    rw [hchal]
    exact b64urlNoPad_ne_empty _ (sha256_lt _) (sha256_ne_nil _)
  constructor
  · simp [pkceCheck, hch, hchne, truthy, hv, hm, ← hchal]
  · intro hv2 hne
    have hcomp := hdiff hne
    simp [pkceCheck, hch, hchne, truthy, hv2, hm, hcomp]

/-- Witness for `pkce_pair_verifies`: the pair generated from 32 zero
bytes verifies against its own stored challenge, and the different
verifier `"x"` is rejected with `invalid_grant`. -/
theorem pkce_pair_verifies_witness :
    pkceCheck
        { code := "c4", client_id := "A", redirect_uri := "http://x/cb",
          code_challenge := some (generate_pkce_pair (List.replicate 32 0)).2,
          code_challenge_method := "S256", scope := "mcp:tools",
          created_at := "t1", used := false }
        (some (generate_pkce_pair (List.replicate 32 0)).1) = none
    ∧ pkceCheck
        { code := "c4", client_id := "A", redirect_uri := "http://x/cb",
          code_challenge := some (generate_pkce_pair (List.replicate 32 0)).2,
          code_challenge_method := "S256", scope := "mcp:tools",
          created_at := "t1", used := false }
        (some "x") = some (.error 400 "invalid_grant") := by
  have h := pkce_pair_verifies (List.replicate 32 0) "x" (by simp)
  have h3 := h.2.2
    { code := "c4", client_id := "A", redirect_uri := "http://x/cb",
      code_challenge := some (generate_pkce_pair (List.replicate 32 0)).2,
      code_challenge_method := "S256", scope := "mcp:tools",
      created_at := "t1", used := false } rfl rfl (by simp)
  exact ⟨h3.1, h3.2 (by decide) (by decide)⟩

end MCPAuth
